import Mathlib

/-!
Shallow embedding of `src/src/mrs1000_node.cpp` (the MRS1000 ROS node of the
LMS1xx driver repository): the layer-index map `getLayerIndex`, the inner
streaming loop (per-unit routing, cursor reset on the start-of-cycle layer,
conditional aggregate-buffer write, cloud publication on the end-of-cycle
layer), and the outer session lifecycle loop (connect retry, timing-field
derivation, read-timeout recovery) with a simulated clock.

Floating-point message fields (`scan_time`, `time_increment`) are embedded as
rationals; times are naturals advanced only by the modelled sleeps; per-beam
sample values are integers (their numeric conversion is outside the core).
-/

namespace MRS1000

/-- Beam count per layer: 275 degrees at 0.25 degree resolution, plus one
(`size_t scan_count = 275 * 4 + 1`, mrs1000_node.cpp line 79). -/
def scan_count : Nat := 275 * 4 + 1

/-- Modelled from the spec: the first of the four physical layer identifiers
(the `CoLaALayers` enumeration lives in a driver header of this repository
that is not under src/). The spec fixes only that the four defined
identifiers are pairwise distinct; distinct concrete codes represent them. -/
def Layer2 : Nat := 250

/-- Modelled from the spec: the second physical layer identifier. -/
def Layer3 : Nat := 0

/-- Modelled from the spec: the third physical layer identifier. -/
def Layer1 : Nat := 500

/-- Modelled from the spec: the fourth physical layer identifier
(the end-of-cycle marker). -/
def Layer4 : Nat := 65286

/-- One measurement unit as delivered by `laser.getScanData`: the layer tag
`data.header.status_info.layer_angle` and one sweep of per-beam sample
values (stand-ins for the converted x/y/z/intensity floats). -/
structure ScanData where
  layer_angle : Nat
  samples : List Int
deriving DecidableEq

/-- `getLayerIndex` (mrs1000_node.cpp lines 27-40): the switch mapping the
four layer identifiers to output slots 0..3, falling through to 0 for any
other value. -/
def getLayerIndex (layer : Nat) : Nat :=
  if layer = Layer2 then 0
  else if layer = Layer3 then 1
  else if layer = Layer1 then 2
  else if layer = Layer4 then 3
  else 0

/-- The synchronisation state of the inner streaming loop: the `synced` flag
(line 186) and the four point-cloud write iterators `iter_x` .. `iter_int`
(lines 178-181), each a cursor position into its channel buffer, together
with the four channel buffers of the reused `cloud` message. -/
structure SyncState where
  synced : Bool
  cur_x : Nat
  cur_y : Nat
  cur_z : Nat
  cur_i : Nat
  buf_x : List Int
  buf_y : List Int
  buf_z : List Int
  buf_i : List Int
deriving DecidableEq

/-- A published aggregate cloud message: its header stamp and a snapshot of
the four channel buffers at publication time. -/
structure Cloud where
  stamp : Nat
  pts_x : List Int
  pts_y : List Int
  pts_z : List Int
  pts_i : List Int
deriving DecidableEq

/-- Observable state of the inner streaming loop: sync state, the current
`cloud.header.stamp`, and the histories of messages handed to the output
sinks (per-layer 2D scans, per-layer multi-echo scans, aggregate clouds).
Scan publications are recorded as (slot, unit) pairs: the slot is the index
into `layer_pubs` / `layer_multi_pubs` selected on lines 202 and 207. -/
structure LoopState where
  sync : SyncState
  cloudStamp : Nat
  publishedScans : List (Nat × ScanData)
  publishedMulti : List (Nat × ScanData)
  publishedClouds : List Cloud
deriving DecidableEq

/-- Overwrite `samples.length` elements of `buf` starting at position `pos`:
the effect of writing through a PointCloud2 iterator positioned at `pos`. -/
def writeAt (buf : List Int) (pos : Nat) (samples : List Int) : List Int :=
  buf.take pos ++ samples ++ buf.drop (pos + samples.length)

/-- Modelled from the spec: `CoLaAConversion.fillPointCloud2` (declared in a
header of this repository that is not under src/) appends the unit's samples
into the buffer at the current cursor position for each of the four channels
x, y, z, intensity, advancing each cursor by the number of samples written. -/
def fillPointCloud2 (s : SyncState) (d : ScanData) : SyncState :=
  { s with
    buf_x := writeAt s.buf_x s.cur_x d.samples
    buf_y := writeAt s.buf_y s.cur_y d.samples
    buf_z := writeAt s.buf_z s.cur_z d.samples
    buf_i := writeAt s.buf_i s.cur_i d.samples
    cur_x := s.cur_x + d.samples.length
    cur_y := s.cur_y + d.samples.length
    cur_z := s.cur_z + d.samples.length
    cur_i := s.cur_i + d.samples.length }

/-- One successful iteration of the inner streaming loop (mrs1000_node.cpp
lines 188-239, `getScanData` returning true), at simulated time `t`:
record `cloud.header.stamp = start` (lines 190-192); publish the 2D scan and
the multi-echo scan on the slot chosen by `getLayerIndex` (lines 200-207);
on the `Layer2` unit reset the four iterators to buffer start and set
`synced` (lines 210-217); `continue` without a buffer write when not synced
(lines 219-220); otherwise write the unit into the cloud buffers (line 222)
and, on the `Layer4` unit, publish the cloud (lines 225-229). -/
def processUnit (st : LoopState) (t : Nat) (d : ScanData) : LoopState :=
  let st1 : LoopState := { st with cloudStamp := t }
  let st2 : LoopState :=
    { st1 with
      publishedScans := st1.publishedScans ++ [(getLayerIndex d.layer_angle, d)]
      publishedMulti := st1.publishedMulti ++ [(getLayerIndex d.layer_angle, d)] }
  let sync :=
    if d.layer_angle = Layer2 then
      { st2.sync with cur_x := 0, cur_y := 0, cur_z := 0, cur_i := 0, synced := true }
    else st2.sync
  if sync.synced = false then { st2 with sync := sync }
  else
    let sync' := fillPointCloud2 sync d
    let st3 : LoopState := { st2 with sync := sync' }
    if d.layer_angle = Layer4 then
      { st3 with
        publishedClouds := st3.publishedClouds ++
          [{ stamp := st3.cloudStamp, pts_x := sync'.buf_x, pts_y := sync'.buf_y,
             pts_z := sync'.buf_z, pts_i := sync'.buf_i }] }
    else st3

/-- Run the inner streaming loop over a list of timed, successfully read
measurement units (each pair is the iteration's `ros::Time::now()` value and
the unit `getScanData` delivered). -/
def runUnits (st : LoopState) (tus : List (Nat × ScanData)) : LoopState :=
  tus.foldl (fun s td => processUnit s td.1 td.2) st

/-- The inner-loop state on entering the streaming phase: fresh iterators at
buffer start (lines 178-185), `synced = false` (line 186), channel buffers
holding `b` (the reused cloud message's current contents), and no messages
published yet in this session. -/
def initLoopState (b : List Int) : LoopState :=
  { sync := { synced := false, cur_x := 0, cur_y := 0, cur_z := 0, cur_i := 0,
              buf_x := b, buf_y := b, buf_z := b, buf_i := b }
    cloudStamp := 0
    publishedScans := []
    publishedMulti := []
    publishedClouds := [] }

/-- `ros::Duration(1).sleep()` after a failed connection attempt
(mrs1000_node.cpp line 123), in simulated time units. -/
def connectRetryDelay : Nat := 1

/-- `ros::Duration(10.0).sleep()` after a read timeout
(mrs1000_node.cpp line 234), in simulated time units. -/
def faultDelay : Nat := 10

/-- The per-scan timing fields of the two scan messages, as rationals
standing in for the node's doubles: `multi_scan.scan_time`,
`multi_scan.time_increment`, `scan.scan_time`, `scan.time_increment`. -/
structure Timing where
  multi_scan_time : ℚ
  multi_time_inc : ℚ
  scan_scan_time : ℚ
  scan_time_inc : ℚ
deriving DecidableEq

/-- Timing-field derivation on a successful connection (mrs1000_node.cpp
lines 140-143): `multi_scan.scan_time = 100.0 / cfg.scan_frequency`,
`multi_scan.time_increment = (output_range.angular_resolution / 10000.0)
/ 360.0 / multi_scan.scan_time`, both copied into `scan`. `freq` is the
device-reported scan frequency and `ares` the output range's angular
resolution. -/
def deriveTiming (freq ares : ℚ) : Timing :=
  { multi_scan_time := 100 / freq
    multi_time_inc := (ares / 10000) / 360 / (100 / freq)
    scan_scan_time := 100 / freq
    scan_time_inc := (ares / 10000) / 360 / (100 / freq) }

/-- Lifecycle phase of the outer loop: between the `connect` attempt and the
inner loop (`disconnected`), or inside the inner read loop (`streaming`). -/
inductive Phase where
  | disconnected
  | streaming
deriving DecidableEq

/-- Result of one `laser.getScanData` call: a unit delivered at a simulated
time, or a timeout (the call returning false). -/
inductive ReadResult where
  | ok (t : Nat) (d : ScanData)
  | timeout
deriving DecidableEq

/-- Driver-visible events consumed by the outer loop: a connection attempt
with its outcome and the device-reported scan frequency and angular
resolution, or a read attempt with its outcome. -/
inductive Event where
  | connectAttempt (ok : Bool) (freq ares : ℚ)
  | readAttempt (r : ReadResult)
deriving DecidableEq

/-- Observable state of the session lifecycle (mrs1000_node.cpp lines
116-242): current phase, a simulated clock advanced only by the modelled
sleeps, whether the transport is open, how many read-timeout errors were
logged, the scan-message timing fields, and the inner-loop state. -/
structure MachineState where
  phase : Phase
  clock : Nat
  transportOpen : Bool
  errorsLogged : Nat
  timing : Timing
  loop : LoopState
deriving DecidableEq

/-- One step of the session lifecycle. A failed connection attempt sleeps
`connectRetryDelay` and stays disconnected (lines 120-125); a successful one
opens the transport, derives the timing fields (lines 140-143), creates
fresh iterators and clears `synced` (lines 178-186), and enters streaming.
While streaming, a delivered unit is processed by the inner loop body, and a
read timeout logs an error, sleeps `faultDelay`, leaves the inner loop and
closes the transport (lines 231-241), returning to `disconnected`. Events
that do not match the phase are ignored. -/
def stepSession (s : MachineState) (e : Event) : MachineState :=
  match e with
  | .connectAttempt ok freq ares =>
    if s.phase = Phase.disconnected then
      if ok then
        { s with
          phase := Phase.streaming
          transportOpen := true
          timing := deriveTiming freq ares
          loop := { s.loop with
            sync := { s.loop.sync with
              synced := false, cur_x := 0, cur_y := 0, cur_z := 0, cur_i := 0 } } }
      else { s with clock := s.clock + connectRetryDelay }
    else s
  | .readAttempt r =>
    if s.phase = Phase.streaming then
      match r with
      | .ok t d => { s with loop := processUnit s.loop t d }
      | .timeout =>
        { s with
          phase := Phase.disconnected
          clock := s.clock + faultDelay
          transportOpen := false
          errorsLogged := s.errorsLogged + 1 }
    else s

/-! ### Basic facts about the layer constants and the index map -/

lemma getLayerIndex_L2 : getLayerIndex Layer2 = 0 := by decide

lemma getLayerIndex_L3 : getLayerIndex Layer3 = 1 := by decide

lemma getLayerIndex_L1 : getLayerIndex Layer1 = 2 := by decide

lemma getLayerIndex_L4 : getLayerIndex Layer4 = 3 := by decide

/-! ### Step lemmas for one inner-loop iteration -/

@[simp] lemma runUnits_nil (st : LoopState) : runUnits st [] = st := rfl

@[simp] lemma runUnits_cons (st : LoopState) (td : Nat × ScanData)
    (tus : List (Nat × ScanData)) :
    runUnits st (td :: tus) = runUnits (processUnit st td.1 td.2) tus := rfl

/-- A start-of-cycle unit: iterators reset to buffer start, `synced` set,
the unit routed on slot 0 and written at position 0 of every channel. -/
lemma processUnit_L2 (st : LoopState) (t : Nat) (d : ScanData)
    (h : d.layer_angle = Layer2) :
    processUnit st t d =
      { st with
        cloudStamp := t
        publishedScans := st.publishedScans ++ [(0, d)]
        publishedMulti := st.publishedMulti ++ [(0, d)]
        sync := { synced := true
                  cur_x := d.samples.length, cur_y := d.samples.length
                  cur_z := d.samples.length, cur_i := d.samples.length
                  buf_x := writeAt st.sync.buf_x 0 d.samples
                  buf_y := writeAt st.sync.buf_y 0 d.samples
                  buf_z := writeAt st.sync.buf_z 0 d.samples
                  buf_i := writeAt st.sync.buf_i 0 d.samples } } := by
  simp [processUnit, h, getLayerIndex, fillPointCloud2, Layer2, Layer4]

/-- A synced mid-cycle unit (neither start nor end marker): routed and
appended at the current cursors, no publication. -/
lemma processUnit_mid (st : LoopState) (t : Nat) (d : ScanData)
    (hs : st.sync.synced = true) (h2 : d.layer_angle ≠ Layer2)
    (h4 : d.layer_angle ≠ Layer4) :
    processUnit st t d =
      { st with
        cloudStamp := t
        publishedScans := st.publishedScans ++ [(getLayerIndex d.layer_angle, d)]
        publishedMulti := st.publishedMulti ++ [(getLayerIndex d.layer_angle, d)]
        sync := fillPointCloud2 st.sync d } := by
  simp [processUnit, h2, h4, hs]

/-- A synced end-of-cycle unit: routed on slot 3, appended, and the cloud
published with the buffers as just written and the stamp of this
iteration. -/
lemma processUnit_L4 (st : LoopState) (t : Nat) (d : ScanData)
    (hs : st.sync.synced = true) (h : d.layer_angle = Layer4) :
    processUnit st t d =
      { st with
        cloudStamp := t
        publishedScans := st.publishedScans ++ [(3, d)]
        publishedMulti := st.publishedMulti ++ [(3, d)]
        sync := fillPointCloud2 st.sync d
        publishedClouds := st.publishedClouds ++
          [{ stamp := t
             pts_x := (fillPointCloud2 st.sync d).buf_x
             pts_y := (fillPointCloud2 st.sync d).buf_y
             pts_z := (fillPointCloud2 st.sync d).buf_z
             pts_i := (fillPointCloud2 st.sync d).buf_i }] } := by
  have h2 : d.layer_angle ≠ Layer2 := by rw [h]; decide
  simp [processUnit, h, h2, hs, getLayerIndex, Layer1, Layer2, Layer3, Layer4]

/-- An unsynced unit that is not the start marker: routed, then discarded
with no buffer write and no state change beyond the stamp and routing. -/
lemma processUnit_unsynced (st : LoopState) (t : Nat) (d : ScanData)
    (hs : st.sync.synced = false) (h2 : d.layer_angle ≠ Layer2) :
    processUnit st t d =
      { st with
        cloudStamp := t
        publishedScans := st.publishedScans ++ [(getLayerIndex d.layer_angle, d)]
        publishedMulti := st.publishedMulti ++ [(getLayerIndex d.layer_angle, d)] } := by
  simp [processUnit, h2, hs]

/-- Evolution of the `synced` flag across one iteration: it is set exactly
when the unit is the start marker and is never cleared. -/
lemma processUnit_syncedAfter (st : LoopState) (t : Nat) (d : ScanData) :
    (processUnit st t d).sync.synced
      = (st.sync.synced || (d.layer_angle == Layer2)) := by
  by_cases h2 : d.layer_angle = Layer2
  · rw [processUnit_L2 st t d h2, h2]
    simp
  · have hb2 : (d.layer_angle == Layer2) = false := by
      simpa using h2
    cases hs : st.sync.synced with
    | false => rw [processUnit_unsynced st t d hs h2]; simp [hb2, hs]
    | true =>
      by_cases h4 : d.layer_angle = Layer4
      · rw [processUnit_L4 st t d hs h4]; simp [fillPointCloud2, hs]
      · rw [processUnit_mid st t d hs h2 h4]; simp [fillPointCloud2, hs]

/-- Number of clouds appended by one iteration: one exactly when the unit is
the end marker and the loop is synced after the start-marker check. -/
lemma processUnit_cloudsLen (st : LoopState) (t : Nat) (d : ScanData) :
    (processUnit st t d).publishedClouds.length
      = st.publishedClouds.length +
        (if ((st.sync.synced || (d.layer_angle == Layer2))
              && (d.layer_angle == Layer4)) = true then 1 else 0) := by
  by_cases h2 : d.layer_angle = Layer2
  · have h4 : (d.layer_angle == Layer4) = false := by
      rw [h2]; decide
    rw [processUnit_L2 st t d h2]
    simp [h4]
  · have hb2 : (d.layer_angle == Layer2) = false := by
      simpa using h2
    cases hs : st.sync.synced with
    | false => rw [processUnit_unsynced st t d hs h2]; simp [hb2]
    | true =>
      by_cases h4 : d.layer_angle = Layer4
      · have hb4 : (d.layer_angle == Layer4) = true := by simpa using h4
        rw [processUnit_L4 st t d hs h4]
        simp [hb4]
      · have hb4 : (d.layer_angle == Layer4) = false := by simpa using h4
        rw [processUnit_mid st t d hs h2 h4]
        simp [hb4]

/-- Specification-level counter: how many clouds the assembler flushes over
a unit sequence, starting from sync flag `b`. -/
def cloudCount : Bool → List ScanData → Nat
  | _, [] => 0
  | b, d :: rest =>
    (if ((b || (d.layer_angle == Layer2)) && (d.layer_angle == Layer4)) = true
      then 1 else 0)
      + cloudCount (b || (d.layer_angle == Layer2)) rest

/-- The inner loop publishes exactly `cloudCount` clouds over any unit
sequence. -/
lemma runUnits_cloudCount (tus : List (Nat × ScanData)) : ∀ st : LoopState,
    (runUnits st tus).publishedClouds.length =
      st.publishedClouds.length + cloudCount st.sync.synced (tus.map Prod.snd) := by
  induction tus with
  | nil => intro st; simp [cloudCount]
  | cons td tus ih =>
    intro st
    rw [runUnits_cons, ih, processUnit_cloudsLen, processUnit_syncedAfter,
        List.map_cons, cloudCount]
    omega

/-- The `synced` flag after a run: set exactly when it was already set or
some unit of the run carries the start-of-cycle identifier. -/
lemma runUnits_synced (tus : List (Nat × ScanData)) : ∀ st : LoopState,
    (runUnits st tus).sync.synced =
      (st.sync.synced || tus.any fun td => td.2.layer_angle == Layer2) := by
  induction tus with
  | nil => intro st; simp
  | cons td tus ih =>
    intro st
    rw [runUnits_cons, ih, processUnit_syncedAfter]
    simp [Bool.or_assoc]

/-- `cloudCount` is nonzero exactly when some unit carries the end-of-cycle
identifier and a start-of-cycle unit occurs at or before it (or the sync
flag was already set). -/
lemma cloudCount_ne_zero_iff (us : List ScanData) : ∀ b : Bool,
    cloudCount b us ≠ 0 ↔
      ∃ j x, us[j]? = some x ∧ x.layer_angle = Layer4 ∧
        (b = true ∨ ((us.take (j+1)).any fun e => e.layer_angle == Layer2) = true) := by
  induction us with
  | nil => intro b; simp [cloudCount]
  | cons d rest ih =>
    intro b
    have hsplit : ∀ a c : Nat, a + c ≠ 0 ↔ a ≠ 0 ∨ c ≠ 0 := by omega
    rw [cloudCount, hsplit]
    constructor
    · rintro (h1 | h1)
      · have hc : ((b || (d.layer_angle == Layer2))
            && (d.layer_angle == Layer4)) = true := by
          by_contra hc
          rw [if_neg hc] at h1
          exact h1 rfl
        simp only [Bool.and_eq_true, Bool.or_eq_true, beq_iff_eq] at hc
        refine ⟨0, d, by simp, hc.2, ?_⟩
        rcases hc.1 with hb | hb
        · exact Or.inl hb
        · right
          simp [hb]
      · obtain ⟨j, x, hget, h4, hb⟩ := (ih _).mp h1
        refine ⟨j + 1, x, by simpa using hget, h4, ?_⟩
        rcases hb with hb | hb
        · simp only [Bool.or_eq_true, beq_iff_eq] at hb
          rcases hb with hb | hb
          · exact Or.inl hb
          · right
            simp [List.take_succ_cons, List.any_cons, hb]
        · right
          simp [List.take_succ_cons, List.any_cons, hb]
    · rintro ⟨j, x, hget, h4, hb⟩
      cases j with
      | zero =>
        have hdx : d = x := by simpa using hget
        left
        have hc : ((b || (d.layer_angle == Layer2))
            && (d.layer_angle == Layer4)) = true := by
          simp only [Bool.and_eq_true, Bool.or_eq_true, beq_iff_eq]
          refine ⟨?_, by rw [hdx]; exact h4⟩
          rcases hb with hb | hb
          · exact Or.inl hb
          · right
            simpa using hb
        rw [if_pos hc]
        exact one_ne_zero
      | succ j =>
        right
        have hget' : rest[j]? = some x := by simpa using hget
        refine (ih _).mpr ⟨j, x, hget', h4, ?_⟩
        rcases hb with hb | hb
        · exact Or.inl (by simp [hb])
        · rw [List.take_succ_cons, List.any_cons] at hb
          simp only [Bool.or_eq_true] at hb
          rcases hb with hb | hb
          · exact Or.inl (by simp [hb])
          · exact Or.inr hb

/-! ### Buffer arithmetic for cursor writes -/

/-- Writing at the buffer start overwrites a prefix. -/
lemma writeAt_zero (b s : List Int) : writeAt b 0 s = s ++ b.drop s.length := by
  simp [writeAt]

/-- A write entirely beyond a prefix leaves the prefix intact. -/
lemma writeAt_append_right (l r s : List Int) (p : Nat) (hl : l.length ≤ p) :
    writeAt (l ++ r) p s = l ++ writeAt r (p - l.length) s := by
  unfold writeAt
  rw [List.take_append_eq_append_take, List.take_of_length_le hl,
      List.drop_append_eq_append_drop,
      List.drop_eq_nil_of_le (le_trans hl (Nat.le_add_right _ _))]
  have harith : p + s.length - l.length = p - l.length + s.length := by omega
  rw [harith]
  simp [List.append_assoc]

/-- A write within the bounds of the buffer preserves its length. -/
lemma length_writeAt (b s : List Int) (p : Nat) (h : p + s.length ≤ b.length) :
    (writeAt b p s).length = b.length := by
  unfold writeAt
  simp only [List.length_append, List.length_take, List.length_drop]
  omega

/-- Four cursor writes of one layer each, at cursor positions 0, n, n+n,
n+n+n, over a buffer of four layers, fully overwrite it with the four
sample blocks in write order. -/
lemma writeAt_cycle (c s1 s2 s3 s4 : List Int) (n : Nat)
    (h1 : s1.length = n) (h2 : s2.length = n) (h3 : s3.length = n)
    (h4 : s4.length = n) (hc : c.length = 4 * n) :
    writeAt (writeAt (writeAt (writeAt c 0 s1) n s2) (n + n) s3) (n + n + n) s4
      = s1 ++ (s2 ++ (s3 ++ s4)) := by
  have e1 : writeAt c 0 s1 = s1 ++ c.drop n := by
    rw [writeAt_zero, h1]
  have e2 : writeAt (s1 ++ c.drop n) n s2 = s1 ++ (s2 ++ (c.drop n).drop n) := by
    rw [writeAt_append_right _ _ _ _ (le_of_eq h1), h1, Nat.sub_self,
        writeAt_zero, h2]
  have e3 : writeAt (s1 ++ (s2 ++ (c.drop n).drop n)) (n + n) s3
      = s1 ++ (s2 ++ (s3 ++ ((c.drop n).drop n).drop n)) := by
    rw [writeAt_append_right _ _ _ _ (by omega : s1.length ≤ n + n), h1,
        show n + n - n = n by omega,
        writeAt_append_right _ _ _ _ (le_of_eq h2), h2, Nat.sub_self,
        writeAt_zero, h3]
  have e4 : writeAt (s1 ++ (s2 ++ (s3 ++ ((c.drop n).drop n).drop n))) (n + n + n) s4
      = s1 ++ (s2 ++ (s3 ++ (s4 ++ (((c.drop n).drop n).drop n).drop n))) := by
    rw [writeAt_append_right _ _ _ _ (by omega : s1.length ≤ n + n + n), h1,
        show n + n + n - n = n + n by omega,
        writeAt_append_right _ _ _ _ (by omega : s2.length ≤ n + n), h2,
        show n + n - n = n by omega,
        writeAt_append_right _ _ _ _ (le_of_eq h3), h3, Nat.sub_self,
        writeAt_zero, h4]
  have edrop : (((c.drop n).drop n).drop n).drop n = [] := by
    apply List.drop_eq_nil_of_le
    simp only [List.length_drop]
    omega
  rw [e1, e2, e3, e4, edrop]
  simp

/-- Routing is unconditional: every processed unit is appended to the 2D and
multi-echo histories on the slot chosen by the layer-index map, in every
sync state. -/
lemma processUnit_scans (st : LoopState) (t : Nat) (d : ScanData) :
    (processUnit st t d).publishedScans
      = st.publishedScans ++ [(getLayerIndex d.layer_angle, d)] ∧
    (processUnit st t d).publishedMulti
      = st.publishedMulti ++ [(getLayerIndex d.layer_angle, d)] := by
  by_cases h2 : d.layer_angle = Layer2
  · rw [processUnit_L2 st t d h2, h2, getLayerIndex_L2]
    exact ⟨rfl, rfl⟩
  · cases hs : st.sync.synced with
    | false => rw [processUnit_unsynced st t d hs h2]; exact ⟨rfl, rfl⟩
    | true =>
      by_cases h4 : d.layer_angle = Layer4
      · rw [processUnit_L4 st t d hs h4, h4, getLayerIndex_L4]
        exact ⟨rfl, rfl⟩
      · rw [processUnit_mid st t d hs h2 h4]
        exact ⟨rfl, rfl⟩

/-- An all-zero aggregate buffer of four layers, the contents of the freshly
allocated cloud message. -/
def zeroBuf : List Int := List.replicate (4 * scan_count) 0

/-- Claim C4: the layer-index map sends the four defined identifiers to the
pairwise distinct slots 0, 1, 2, 3 in the canonical order Layer2, Layer3,
Layer1, Layer4, and sends every identifier outside the defined four to
slot 0. -/
theorem C4_layer_index_total_with_fallback :
    getLayerIndex Layer2 = 0 ∧ getLayerIndex Layer3 = 1 ∧
    getLayerIndex Layer1 = 2 ∧ getLayerIndex Layer4 = 3 ∧
    ∀ x : Nat, x ≠ Layer2 → x ≠ Layer3 → x ≠ Layer1 → x ≠ Layer4 →
      getLayerIndex x = 0 := by
  refine ⟨by decide, by decide, by decide, by decide, ?_⟩
  intro x h2 h3 h1 h4
  simp [getLayerIndex, h1, h2, h3, h4]

/-- Witness for C4 at the concrete undefined identifier 777. -/
theorem C4_layer_index_total_with_fallback_witness : getLayerIndex 777 = 0 :=
  C4_layer_index_total_with_fallback.2.2.2.2 777 (by decide) (by decide)
    (by decide) (by decide)

/-- Claim C3: for every successfully read unit, the 2D scan and multi-echo
scan are published on the channel selected by the layer-index map regardless
of the sync flag, while an unsynced unit that is not the start marker leaves
the whole aggregate-buffer state (cursors and buffers) unchanged: it is
discarded after routing. -/
theorem C3_route_always_write_only_synced (st : LoopState) (t : Nat)
    (d : ScanData) :
    (processUnit st t d).publishedScans
        = st.publishedScans ++ [(getLayerIndex d.layer_angle, d)] ∧
    (processUnit st t d).publishedMulti
        = st.publishedMulti ++ [(getLayerIndex d.layer_angle, d)] ∧
    (st.sync.synced = false → d.layer_angle ≠ Layer2 →
      (processUnit st t d).sync = st.sync) := by
  refine ⟨(processUnit_scans st t d).1, (processUnit_scans st t d).2, ?_⟩
  intro hs h2
  rw [processUnit_unsynced st t d hs h2]

/-- Witness for C3: an unsynced Layer3 unit is routed on slot 1 and
discarded with no buffer write. -/
theorem C3_route_always_write_only_synced_witness :
    (processUnit (initLoopState zeroBuf) 7 { layer_angle := Layer3, samples := [4] }
        ).publishedScans
      = [(1, { layer_angle := Layer3, samples := [4] })] ∧
    (processUnit (initLoopState zeroBuf) 7 { layer_angle := Layer3, samples := [4] }
        ).sync = (initLoopState zeroBuf).sync := by
  have h := C3_route_always_write_only_synced (initLoopState zeroBuf) 7
    { layer_angle := Layer3, samples := [4] }
  refine ⟨?_, h.2.2 rfl (by decide)⟩
  have h1 := h.1
  rw [h1]
  simp [initLoopState, getLayerIndex_L3]

/-- Claim C1 (amended): within one streaming session a cloud is published
iff some received unit carries the end-of-cycle identifier Layer4 and a unit
carrying the start-of-cycle identifier Layer2 occurs at or before it; in
particular a session without a start marker never publishes, but
completeness of the layers between the markers is not required. -/
theorem C1_cloud_publish_iff (b : List Int) (tus : List (Nat × ScanData)) :
    (runUnits (initLoopState b) tus).publishedClouds ≠ [] ↔
      ∃ j x, (tus.map Prod.snd)[j]? = some x ∧ x.layer_angle = Layer4 ∧
        (((tus.map Prod.snd).take (j + 1)).any fun e => e.layer_angle == Layer2)
          = true := by
  have hlen : (runUnits (initLoopState b) tus).publishedClouds.length
      = cloudCount false (tus.map Prod.snd) := by
    rw [runUnits_cloudCount]
    simp [initLoopState]
  rw [ne_eq, ← List.length_eq_zero, hlen, ← ne_eq, cloudCount_ne_zero_iff]
  simp

/-- Counterexample to claim C1 as stated: the two-unit session start marker
then end marker — a cycle missing both Layer3 and Layer1 between the
markers — still publishes a cloud, so the "no missing layer in between"
condition is not enforced and a partial-cycle cloud is published. -/
theorem C1_counterexample :
    (runUnits (initLoopState zeroBuf)
        [(0, { layer_angle := Layer2, samples := List.replicate scan_count 1 }),
         (1, { layer_angle := Layer4, samples := List.replicate scan_count 2 })]
      ).publishedClouds.length = 1 ∧
    ([(0, ({ layer_angle := Layer2, samples := List.replicate scan_count 1 } : ScanData)),
      (1, { layer_angle := Layer4, samples := List.replicate scan_count 2 })].all
        fun td => !(td.2.layer_angle == Layer3) && !(td.2.layer_angle == Layer1))
      = true := by
  constructor
  · rw [runUnits_cloudCount]
    decide
  · decide

/-- Claim C2: a unit carrying the start-of-cycle identifier unconditionally
resets all four write cursors to buffer start and sets `synced` (the unit's
own samples are then written at position 0 of every channel), discarding any
previously accumulated partial cycle; the session start, L3, new start, L3,
L1, end publishes exactly one cloud, holding precisely the data written
after the second start marker at its cursor positions. -/
theorem C2_new_start_discards_partial :
    (∀ (st : LoopState) (t : Nat) (d : ScanData), d.layer_angle = Layer2 →
      (processUnit st t d).sync.synced = true ∧
      (processUnit st t d).sync.cur_x = d.samples.length ∧
      (processUnit st t d).sync.cur_y = d.samples.length ∧
      (processUnit st t d).sync.cur_z = d.samples.length ∧
      (processUnit st t d).sync.cur_i = d.samples.length ∧
      (processUnit st t d).sync.buf_x = writeAt st.sync.buf_x 0 d.samples ∧
      (processUnit st t d).sync.buf_y = writeAt st.sync.buf_y 0 d.samples ∧
      (processUnit st t d).sync.buf_z = writeAt st.sync.buf_z 0 d.samples ∧
      (processUnit st t d).sync.buf_i = writeAt st.sync.buf_i 0 d.samples) ∧
    ∀ (b : List Int) (t1 t2 t3 t4 t5 t6 : Nat) (s1 s2 s3 s4 s5 s6 : List Int),
      s1.length = scan_count → s2.length = scan_count →
      s3.length = scan_count → s4.length = scan_count →
      s5.length = scan_count → s6.length = scan_count →
      b.length = 4 * scan_count →
      (runUnits (initLoopState b)
          [(t1, { layer_angle := Layer2, samples := s1 }),
           (t2, { layer_angle := Layer3, samples := s2 }),
           (t3, { layer_angle := Layer2, samples := s3 }),
           (t4, { layer_angle := Layer3, samples := s4 }),
           (t5, { layer_angle := Layer1, samples := s5 }),
           (t6, { layer_angle := Layer4, samples := s6 })]).publishedClouds
        = [{ stamp := t6
             pts_x := s3 ++ (s4 ++ (s5 ++ s6))
             pts_y := s3 ++ (s4 ++ (s5 ++ s6))
             pts_z := s3 ++ (s4 ++ (s5 ++ s6))
             pts_i := s3 ++ (s4 ++ (s5 ++ s6)) }] := by
  constructor
  · intro st t d h
    rw [processUnit_L2 st t d h]
    exact ⟨rfl, rfl, rfl, rfl, rfl, rfl, rfl, rfl, rfl⟩
  · intro b t1 t2 t3 t4 t5 t6 s1 s2 s3 s4 s5 s6 h1 h2 h3 h4 h5 h6 hb
    simp only [runUnits_cons, runUnits_nil]
    simp [processUnit_L2, processUnit_mid, processUnit_L4, fillPointCloud2,
      initLoopState, Layer1, Layer2, Layer3, Layer4, h1, h2, h3, h4, h5, h6]
    have hb1 : (writeAt b 0 s1).length = 4 * scan_count := by
      rw [length_writeAt b s1 0 (by rw [h1, hb]; omega)]
      exact hb
    have hb2 : (writeAt (writeAt b 0 s1) scan_count s2).length = 4 * scan_count := by
      rw [length_writeAt (writeAt b 0 s1) s2 scan_count (by rw [h2, hb1]; omega)]
      exact hb1
    exact writeAt_cycle (writeAt (writeAt b 0 s1) scan_count s2) s3 s4 s5 s6
      scan_count h3 h4 h5 h6 hb2

/-- Witness for C2 at concrete constant-valued layers: only the post-restart
data appears in the single published cloud. -/
theorem C2_new_start_discards_partial_witness :
    (runUnits (initLoopState zeroBuf)
        [(0, { layer_angle := Layer2, samples := List.replicate scan_count 1 }),
         (1, { layer_angle := Layer3, samples := List.replicate scan_count 2 }),
         (2, { layer_angle := Layer2, samples := List.replicate scan_count 3 }),
         (3, { layer_angle := Layer3, samples := List.replicate scan_count 4 }),
         (4, { layer_angle := Layer1, samples := List.replicate scan_count 5 }),
         (5, { layer_angle := Layer4, samples := List.replicate scan_count 6 })]
      ).publishedClouds
      = [{ stamp := 5
           pts_x := List.replicate scan_count 3 ++ (List.replicate scan_count 4
             ++ (List.replicate scan_count 5 ++ List.replicate scan_count 6))
           pts_y := List.replicate scan_count 3 ++ (List.replicate scan_count 4
             ++ (List.replicate scan_count 5 ++ List.replicate scan_count 6))
           pts_z := List.replicate scan_count 3 ++ (List.replicate scan_count 4
             ++ (List.replicate scan_count 5 ++ List.replicate scan_count 6))
           pts_i := List.replicate scan_count 3 ++ (List.replicate scan_count 4
             ++ (List.replicate scan_count 5 ++ List.replicate scan_count 6)) }] :=
  C2_new_start_discards_partial.2 zeroBuf 0 1 2 3 4 5 _ _ _ _ _ _
    (by simp) (by simp) (by simp) (by simp) (by simp) (by simp)
    (by simp [zeroBuf])

/-- Dropping a full block of known length from the front of an append. -/
lemma drop_block (w r : List Int) (n : Nat) (hw : w.length = n) :
    (w ++ r).drop n = r := by
  rw [← hw, List.drop_left]

/-- Taking a full block of known length from the front of an append. -/
lemma take_block (w r : List Int) (n : Nat) (hw : w.length = n) :
    (w ++ r).take n = w := by
  rw [← hw, List.take_left]

/-- One streaming session receiving the four layers in the device's
canonical physical arrival order Layer2, Layer3, Layer1, Layer4, one unit
per layer, at iteration times 0..3. -/
def canonicalRun (b s1 s2 s3 s4 : List Int) : LoopState :=
  runUnits (initLoopState b)
    [(0, { layer_angle := Layer2, samples := s1 }),
     (1, { layer_angle := Layer3, samples := s2 }),
     (2, { layer_angle := Layer1, samples := s3 }),
     (3, { layer_angle := Layer4, samples := s4 })]

/-- Counterexample to claim C5 as stated: in the session start marker then a
Layer1 unit, the Layer1 unit's samples (value 2) land at buffer positions
starting at `scan_count` — the region of the second write cursor — while the
region keyed by the layer-index map for Layer1 (slot 2, starting at
`2 * scan_count`) still holds the initial value 0: the landing region
depends on arrival order, not only on the map. -/
theorem C5_counterexample :
    ((runUnits (initLoopState zeroBuf)
        [(0, { layer_angle := Layer2, samples := List.replicate scan_count 1 }),
         (1, { layer_angle := Layer1, samples := List.replicate scan_count 2 })]
      ).sync.buf_x)[scan_count]? = some 2 ∧
    ((runUnits (initLoopState zeroBuf)
        [(0, { layer_angle := Layer2, samples := List.replicate scan_count 1 }),
         (1, { layer_angle := Layer1, samples := List.replicate scan_count 2 })]
      ).sync.buf_x)[2 * scan_count]? = some 0 ∧
    getLayerIndex Layer1 = 2 := by
  have hpos : 0 < scan_count := by decide
  simp only [runUnits_cons, runUnits_nil]
  simp [processUnit_L2, processUnit_mid, fillPointCloud2, initLoopState,
    Layer1, Layer2, Layer3, Layer4]
  have e1 : writeAt zeroBuf 0 (List.replicate scan_count 1)
      = List.replicate scan_count 1 ++ zeroBuf.drop scan_count := by
    rw [writeAt_zero, List.length_replicate]
  have e2 : writeAt (List.replicate scan_count 1 ++ zeroBuf.drop scan_count)
        scan_count (List.replicate scan_count 2)
      = List.replicate scan_count 1 ++ (List.replicate scan_count 2
          ++ (zeroBuf.drop scan_count).drop scan_count) := by
    rw [writeAt_append_right _ _ _ _ (by simp), List.length_replicate,
        Nat.sub_self, writeAt_zero, List.length_replicate]
  have e3 : (zeroBuf.drop scan_count).drop scan_count
      = List.replicate (2 * scan_count) 0 := by
    rw [List.drop_drop, zeroBuf, List.drop_replicate]
    rfl
  rw [e1, e2, e3]
  refine ⟨?_, ?_, by decide⟩
  · rw [List.getElem?_append, List.length_replicate, if_neg (lt_irrefl scan_count),
        Nat.sub_self, List.getElem?_append, List.length_replicate, if_pos hpos,
        List.getElem?_replicate, if_pos hpos]
  · rw [List.getElem?_append, List.length_replicate, if_neg (by omega),
        show 2 * scan_count - scan_count = scan_count from by omega,
        List.getElem?_append, List.length_replicate, if_neg (lt_irrefl scan_count),
        Nat.sub_self, List.getElem?_replicate, if_pos (by omega)]

/-- Claim C5 (amended): a unit written while synced lands at the current
write-cursor position of each channel — the region determined by the number
of samples written since the last start marker — with all four cursors
advancing by the unit's sample count; when the layers arrive in the device's
canonical physical order Layer2, Layer3, Layer1, Layer4 with one full layer
each, these cursor regions coincide with the fixed disjoint slot regions
keyed by the layer-index map (slot k holding positions k * scan_count up to
(k+1) * scan_count). -/
theorem C5_cursor_regions :
    (∀ (st : LoopState) (t : Nat) (d : ScanData),
      st.sync.synced = true → d.layer_angle ≠ Layer2 →
      (processUnit st t d).sync.buf_x = writeAt st.sync.buf_x st.sync.cur_x d.samples ∧
      (processUnit st t d).sync.buf_y = writeAt st.sync.buf_y st.sync.cur_y d.samples ∧
      (processUnit st t d).sync.buf_z = writeAt st.sync.buf_z st.sync.cur_z d.samples ∧
      (processUnit st t d).sync.buf_i = writeAt st.sync.buf_i st.sync.cur_i d.samples ∧
      (processUnit st t d).sync.cur_x = st.sync.cur_x + d.samples.length ∧
      (processUnit st t d).sync.cur_y = st.sync.cur_y + d.samples.length ∧
      (processUnit st t d).sync.cur_z = st.sync.cur_z + d.samples.length ∧
      (processUnit st t d).sync.cur_i = st.sync.cur_i + d.samples.length) ∧
    ∀ b s1 s2 s3 s4 : List Int,
      s1.length = scan_count → s2.length = scan_count →
      s3.length = scan_count → s4.length = scan_count →
      b.length = 4 * scan_count →
      (canonicalRun b s1 s2 s3 s4).sync.buf_x = s1 ++ (s2 ++ (s3 ++ s4)) ∧
      (canonicalRun b s1 s2 s3 s4).sync.buf_y
        = (canonicalRun b s1 s2 s3 s4).sync.buf_x ∧
      (canonicalRun b s1 s2 s3 s4).sync.buf_z
        = (canonicalRun b s1 s2 s3 s4).sync.buf_x ∧
      (canonicalRun b s1 s2 s3 s4).sync.buf_i
        = (canonicalRun b s1 s2 s3 s4).sync.buf_x ∧
      (((canonicalRun b s1 s2 s3 s4).sync.buf_x).drop
          (getLayerIndex Layer2 * scan_count)).take scan_count = s1 ∧
      (((canonicalRun b s1 s2 s3 s4).sync.buf_x).drop
          (getLayerIndex Layer3 * scan_count)).take scan_count = s2 ∧
      (((canonicalRun b s1 s2 s3 s4).sync.buf_x).drop
          (getLayerIndex Layer1 * scan_count)).take scan_count = s3 ∧
      (((canonicalRun b s1 s2 s3 s4).sync.buf_x).drop
          (getLayerIndex Layer4 * scan_count)).take scan_count = s4 := by
  constructor
  · intro st t d hs h2
    by_cases h4 : d.layer_angle = Layer4
    · rw [processUnit_L4 st t d hs h4]
      exact ⟨rfl, rfl, rfl, rfl, rfl, rfl, rfl, rfl⟩
    · rw [processUnit_mid st t d hs h2 h4]
      exact ⟨rfl, rfl, rfl, rfl, rfl, rfl, rfl, rfl⟩
  · intro b s1 s2 s3 s4 h1 h2 h3 h4 hb
    have hsync : (canonicalRun b s1 s2 s3 s4).sync
        = { synced := true
            cur_x := scan_count + scan_count + scan_count + scan_count
            cur_y := scan_count + scan_count + scan_count + scan_count
            cur_z := scan_count + scan_count + scan_count + scan_count
            cur_i := scan_count + scan_count + scan_count + scan_count
            buf_x := s1 ++ (s2 ++ (s3 ++ s4))
            buf_y := s1 ++ (s2 ++ (s3 ++ s4))
            buf_z := s1 ++ (s2 ++ (s3 ++ s4))
            buf_i := s1 ++ (s2 ++ (s3 ++ s4)) } := by
      have hc := writeAt_cycle b s1 s2 s3 s4 scan_count h1 h2 h3 h4 hb
      simp only [canonicalRun, runUnits_cons, runUnits_nil]
      simp [processUnit_L2, processUnit_mid, processUnit_L4, fillPointCloud2,
        initLoopState, Layer1, Layer2, Layer3, Layer4, h1, h2, h3, h4]
      exact hc
    have hbx : (canonicalRun b s1 s2 s3 s4).sync.buf_x
        = s1 ++ (s2 ++ (s3 ++ s4)) := by rw [hsync]
    have hby : (canonicalRun b s1 s2 s3 s4).sync.buf_y
        = (canonicalRun b s1 s2 s3 s4).sync.buf_x := by rw [hsync]
    have hbz : (canonicalRun b s1 s2 s3 s4).sync.buf_z
        = (canonicalRun b s1 s2 s3 s4).sync.buf_x := by rw [hsync]
    have hbi : (canonicalRun b s1 s2 s3 s4).sync.buf_i
        = (canonicalRun b s1 s2 s3 s4).sync.buf_x := by rw [hsync]
    refine ⟨hbx, hby, hbz, hbi, ?_, ?_, ?_, ?_⟩
    · rw [hbx, getLayerIndex_L2, Nat.zero_mul, List.drop_zero]
      exact take_block _ _ _ h1
    · rw [hbx, getLayerIndex_L3, Nat.one_mul, drop_block s1 _ _ h1]
      exact take_block _ _ _ h2
    · rw [hbx, getLayerIndex_L1, Nat.two_mul, ← List.drop_drop,
          drop_block s1 _ _ h1, drop_block s2 _ _ h2]
      exact take_block _ _ _ h3
    · rw [hbx, getLayerIndex_L4,
          show 3 * scan_count = scan_count + (scan_count + scan_count) from by omega,
          ← List.drop_drop, drop_block s1 _ _ h1, ← List.drop_drop,
          drop_block s2 _ _ h2, drop_block s3 _ _ h3]
      exact List.take_of_length_le (le_of_eq h4)

/-- Witness for C5 at concrete constant-valued layers in canonical order:
the Layer1 block sits exactly in the slot-2 region keyed by the map. -/
theorem C5_cursor_regions_witness :
    (((canonicalRun zeroBuf (List.replicate scan_count 1)
        (List.replicate scan_count 2) (List.replicate scan_count 3)
        (List.replicate scan_count 4)).sync.buf_x).drop
        (getLayerIndex Layer1 * scan_count)).take scan_count
      = List.replicate scan_count 3 :=
  ((C5_cursor_regions.2 zeroBuf _ _ _ _ (by simp) (by simp) (by simp) (by simp)
    (by simp [zeroBuf])).2.2.2.2.2.2.1)

/-- A concrete synced loop state with empty buffers, for witnesses. -/
def emptySyncedState : LoopState :=
  { sync := { synced := true, cur_x := 0, cur_y := 0, cur_z := 0, cur_i := 0,
              buf_x := [], buf_y := [], buf_z := [], buf_i := [] }
    cloudStamp := 0
    publishedScans := []
    publishedMulti := []
    publishedClouds := [] }

/-- Counterexample to claim C8 as stated: in the session with the start
marker read at time 0 and the end marker read at time 5, the published
cloud is stamped 5 — the time recorded at the top of the iteration that
read the end-of-cycle unit — not the cycle's start time 0. -/
theorem C8_counterexample :
    ((runUnits (initLoopState zeroBuf)
        [(0, { layer_angle := Layer2, samples := List.replicate scan_count 1 }),
         (5, { layer_angle := Layer4, samples := List.replicate scan_count 2 })]
      ).publishedClouds.map Cloud.stamp) = [5] ∧ (5 : Nat) ≠ 0 := by
  refine ⟨?_, by decide⟩
  simp only [runUnits_cons, runUnits_nil]
  simp [processUnit_L2, processUnit_L4, fillPointCloud2, initLoopState,
    Layer1, Layer2, Layer3, Layer4]

/-- Claim C8 (amended): every published aggregate cloud is stamped with the
`ros::Time::now()` value recorded at the top of the loop iteration in which
the end-of-cycle unit was read — the stamp field is overwritten in every
iteration, so the stamp is the end unit's iteration time, not the cycle's
start time. -/
theorem C8_stamp_is_end_iteration_time (st : LoopState) (t : Nat)
    (d : ScanData) (hs : st.sync.synced = true) (h4 : d.layer_angle = Layer4) :
    (processUnit st t d).publishedClouds
      = st.publishedClouds ++
        [{ stamp := t
           pts_x := (fillPointCloud2 st.sync d).buf_x
           pts_y := (fillPointCloud2 st.sync d).buf_y
           pts_z := (fillPointCloud2 st.sync d).buf_z
           pts_i := (fillPointCloud2 st.sync d).buf_i }] := by
  rw [processUnit_L4 st t d hs h4]

/-- Witness for C8: an end-of-cycle unit read at time 9 yields a cloud
stamped 9. -/
theorem C8_stamp_is_end_iteration_time_witness :
    (processUnit emptySyncedState 9 { layer_angle := Layer4, samples := [] }
      ).publishedClouds.map Cloud.stamp = [9] := by
  rw [C8_stamp_is_end_iteration_time emptySyncedState 9
    { layer_angle := Layer4, samples := [] } rfl rfl]
  rfl

/-- Claim C9: within one streaming session the `synced` flag is monotone —
after any run it equals its initial value or-ed with whether some unit
carried the start marker, so the only modification sets it true — and once
it is set, every processed unit is written into the aggregate buffer (at
cursor 0 for a start marker, at the current cursor otherwise). -/
theorem C9_synced_monotone :
    (∀ (st : LoopState) (tus : List (Nat × ScanData)),
      (runUnits st tus).sync.synced
        = (st.sync.synced || tus.any fun td => td.2.layer_angle == Layer2)) ∧
    ∀ (st : LoopState) (t : Nat) (d : ScanData), st.sync.synced = true →
      (processUnit st t d).sync.synced = true ∧
      (processUnit st t d).sync.buf_x
        = writeAt st.sync.buf_x
            (if d.layer_angle = Layer2 then 0 else st.sync.cur_x) d.samples := by
  constructor
  · exact fun st tus => runUnits_synced tus st
  · intro st t d hs
    by_cases h2 : d.layer_angle = Layer2
    · rw [processUnit_L2 st t d h2, if_pos h2]
      exact ⟨rfl, rfl⟩
    · rw [if_neg h2]
      by_cases h4 : d.layer_angle = Layer4
      · rw [processUnit_L4 st t d hs h4]
        exact ⟨hs, rfl⟩
      · rw [processUnit_mid st t d hs h2 h4]
        exact ⟨hs, rfl⟩

/-- Witness for C9: a synced state stays synced across a Layer3 unit and
writes it at the current cursor. -/
theorem C9_synced_monotone_witness :
    (processUnit emptySyncedState 1 { layer_angle := Layer3, samples := [7] }
      ).sync.synced = true ∧
    (processUnit emptySyncedState 1 { layer_angle := Layer3, samples := [7] }
      ).sync.buf_x
      = writeAt emptySyncedState.sync.buf_x
          (if ({ layer_angle := Layer3, samples := [7] } : ScanData).layer_angle
              = Layer2 then 0
           else emptySyncedState.sync.cur_x) [7] :=
  C9_synced_monotone.2 emptySyncedState 1 { layer_angle := Layer3, samples := [7] } rfl

/-- Claim C10: a unit with an identifier outside the defined four, arriving
while synced, is routed on slot 0 for both scan messages, written into the
aggregate buffer at the current cursors with all four cursors advancing by
its sample count, and publishes no cloud. -/
theorem C10_unknown_layer_slot0 (st : LoopState) (t : Nat) (d : ScanData)
    (hs : st.sync.synced = true)
    (h2 : d.layer_angle ≠ Layer2) (h3 : d.layer_angle ≠ Layer3)
    (h1 : d.layer_angle ≠ Layer1) (h4 : d.layer_angle ≠ Layer4) :
    processUnit st t d
      = { st with
          cloudStamp := t
          publishedScans := st.publishedScans ++ [(0, d)]
          publishedMulti := st.publishedMulti ++ [(0, d)]
          sync := fillPointCloud2 st.sync d } ∧
    (fillPointCloud2 st.sync d).cur_x = st.sync.cur_x + d.samples.length ∧
    (fillPointCloud2 st.sync d).cur_y = st.sync.cur_y + d.samples.length ∧
    (fillPointCloud2 st.sync d).cur_z = st.sync.cur_z + d.samples.length ∧
    (fillPointCloud2 st.sync d).cur_i = st.sync.cur_i + d.samples.length ∧
    (processUnit st t d).publishedClouds = st.publishedClouds := by
  have hidx : getLayerIndex d.layer_angle = 0 := by
    simp [getLayerIndex, h1, h2, h3, h4]
  rw [processUnit_mid st t d hs h2 h4, hidx]
  exact ⟨rfl, rfl, rfl, rfl, rfl, rfl⟩

/-- Witness for C10 at the concrete undefined identifier 777. -/
theorem C10_unknown_layer_slot0_witness :
    (processUnit emptySyncedState 2 { layer_angle := 777, samples := [3] }
      ).publishedScans = [(0, { layer_angle := 777, samples := [3] })] ∧
    (processUnit emptySyncedState 2 { layer_angle := 777, samples := [3] }
      ).publishedClouds = [] := by
  have h := C10_unknown_layer_slot0 emptySyncedState 2
    { layer_angle := 777, samples := [3] } rfl (by decide) (by decide)
    (by decide) (by decide)
  constructor
  · rw [h.1]
    rfl
  · exact h.2.2.2.2.2

/-- A concrete streaming-phase machine state, for witnesses. -/
def streamingState0 : MachineState :=
  { phase := Phase.streaming, clock := 0, transportOpen := true,
    errorsLogged := 0,
    timing := { multi_scan_time := 0, multi_time_inc := 0,
                scan_scan_time := 0, scan_time_inc := 0 }
    loop := initLoopState [] }

/-- A concrete disconnected machine state, for witnesses. -/
def disconnectedState0 : MachineState :=
  { streamingState0 with phase := Phase.disconnected, transportOpen := false }

/-- Claim C6: a read timeout while streaming logs an error, waits the fixed
`faultDelay` of 10 time units, force-closes the transport and returns to
disconnected; a failed connection attempt waits the fixed
`connectRetryDelay` of 1 time unit and stays disconnected to retry; the
connect-retry interval is strictly shorter than the post-timeout delay. -/
theorem C6_timeout_recovery (s : MachineState) (freq ares : ℚ) :
    (s.phase = Phase.streaming →
      stepSession s (Event.readAttempt ReadResult.timeout)
        = { s with phase := Phase.disconnected, clock := s.clock + faultDelay,
                   transportOpen := false,
                   errorsLogged := s.errorsLogged + 1 }) ∧
    (s.phase = Phase.disconnected →
      stepSession s (Event.connectAttempt false freq ares)
        = { s with clock := s.clock + connectRetryDelay }) ∧
    connectRetryDelay < faultDelay := by
  refine ⟨?_, ?_, by decide⟩
  · intro h
    simp [stepSession, h]
  · intro h
    simp [stepSession, h]

/-- Witness for C6: a timeout at clock 0 advances the simulated clock to 10
and closes the transport; a failed connect advances it to 1. -/
theorem C6_timeout_recovery_witness :
    stepSession streamingState0 (Event.readAttempt ReadResult.timeout)
      = { streamingState0 with phase := Phase.disconnected, clock := 10,
                               transportOpen := false, errorsLogged := 1 } ∧
    stepSession disconnectedState0 (Event.connectAttempt false 50 2500)
      = { disconnectedState0 with clock := 1 } ∧
    connectRetryDelay < faultDelay := by
  have ha := C6_timeout_recovery streamingState0 50 2500
  have hb := C6_timeout_recovery disconnectedState0 50 2500
  refine ⟨?_, ?_, ha.2.2⟩
  · rw [ha.1 rfl]
    rfl
  · rw [hb.2.1 rfl]
    rfl

/-- Claim C7: a successful connection attempt — the only transition into the
streaming phase — clears the `synced` flag and derives the per-scan timing
fields as scan_time = 100 / scan_frequency and time_increment
= (angular_resolution / 10000) / 360 / scan_time, identically for the 2D
scan message and the multi-echo scan message. -/
theorem C7_streaming_entry (s : MachineState) (freq ares : ℚ)
    (h : s.phase = Phase.disconnected) :
    (stepSession s (Event.connectAttempt true freq ares)).phase
        = Phase.streaming ∧
    (stepSession s (Event.connectAttempt true freq ares)).loop.sync.synced
        = false ∧
    (stepSession s (Event.connectAttempt true freq ares)).timing.multi_scan_time
        = 100 / freq ∧
    (stepSession s (Event.connectAttempt true freq ares)).timing.multi_time_inc
        = (ares / 10000) / 360 / (100 / freq) ∧
    (stepSession s (Event.connectAttempt true freq ares)).timing.scan_scan_time
        = (stepSession s (Event.connectAttempt true freq ares)).timing.multi_scan_time ∧
    (stepSession s (Event.connectAttempt true freq ares)).timing.scan_time_inc
        = (stepSession s (Event.connectAttempt true freq ares)).timing.multi_time_inc := by
  simp [stepSession, h, deriveTiming]

/-- Witness for C7 at scan frequency 50 and angular resolution 2500. -/
theorem C7_streaming_entry_witness :
    (stepSession disconnectedState0 (Event.connectAttempt true 50 2500)).phase
        = Phase.streaming ∧
    (stepSession disconnectedState0 (Event.connectAttempt true 50 2500)
        ).loop.sync.synced = false ∧
    (stepSession disconnectedState0 (Event.connectAttempt true 50 2500)
        ).timing.multi_scan_time = 100 / 50 ∧
    (stepSession disconnectedState0 (Event.connectAttempt true 50 2500)
        ).timing.multi_time_inc = ((2500 : ℚ) / 10000) / 360 / (100 / 50) ∧
    (stepSession disconnectedState0 (Event.connectAttempt true 50 2500)
        ).timing.scan_scan_time
      = (stepSession disconnectedState0 (Event.connectAttempt true 50 2500)
        ).timing.multi_scan_time ∧
    (stepSession disconnectedState0 (Event.connectAttempt true 50 2500)
        ).timing.scan_time_inc
      = (stepSession disconnectedState0 (Event.connectAttempt true 50 2500)
        ).timing.multi_time_inc :=
  C7_streaming_entry disconnectedState0 50 2500 rfl
